import Mathlib

/-!
Verification of the JAGI_Analytics inventory allocation engine.

This file is a shallow embedding of the two allocation pipelines of the
repository:

* `app/services/reabastecimiento_service.py` (`get_reabastecimiento_avanzado`):
  the replenishment / expansion / new-item allocator, modelled from the point
  where the SQL result frames have been loaded.  The SQL layer itself is taken
  as input data (the row lists of the frames it returns).
* `app/services/redistribucion_service.py` and `app/consultas.py`
  (`get_redistribucion_regional`, two implementations): the regional
  redistribution matcher.

Machine integers of the source (pandas/Python ints) are modelled as `Int`;
nullable columns as `Option Int`.  String columns are `String`; uppercasing,
lowercasing, trimming and whitespace splitting are implemented here by
structural recursion over the character list and agree with Python's
`str.upper()` / `str.lower()` / `str.strip()` / `str.split()` on the ASCII
data handled by the program.  The Unicode accent-stripping step of `_norm`
is the identity on ASCII strings.

Order-sensitive pandas operations are modelled as follows:
* `sort_values(..., kind='quicksort')` is modelled by a deterministic sort on
  the same key.  The source's default quicksort is documented as unstable, so
  the relative order of tied rows carries no guarantee for tied runs of 17 or
  more rows; the model commits to the tie order numpy produces in its
  insertion-sort regime (partitions below 17 elements; pandas double-reverses
  for descending sorts, so ties keep frame order there).  No property stated
  below depends on the tie order except concrete evaluations whose groups
  have at most two rows, where that regime applies and the model is exact.
* `groupby` iterates groups independently; since each allocation pass touches
  each item's group in isolation, the embedding concatenates the processed
  groups.  All properties stated below are membership/multiset properties, so
  the relative order of distinct items' rows is irrelevant.
* the final `sort_values` of each pipeline is a permutation of the rows and is
  omitted (resp. modelled by a stable sort where it is kept); again all stated
  properties are membership properties.
-/

namespace JAGI

/-- Lookup in a Python dict built from an association list by successive
insertion (`dict(zip(ks, vs))` / a dict comprehension): a later binding of the
same key overwrites an earlier one.  `dictGet m k d` models `m.get(k, d)`. -/
def dictGet (m : List (String × Int)) (k : String) (d : Int) : Int :=
  match m.reverse.find? (fun p => p.1 == k) with
  | some p => p.2
  | none => d

/-- Python substring test `pat in s`. -/
def strContains (s pat : String) : Bool :=
  s.data.tails.any (fun t => pat.data.isPrefixOf t)

/-- ASCII lower-casing of one character (Python `str.lower()` on the ASCII
data handled by this program). -/
def charLower (c : Char) : Char :=
  if 'A' ≤ c && c ≤ 'Z' then Char.ofNat (c.toNat + 32) else c

/-- ASCII upper-casing of one character (Python `str.upper()` on ASCII). -/
def charUpper (c : Char) : Char :=
  if 'a' ≤ c && c ≤ 'z' then Char.ofNat (c.toNat - 32) else c

/-- Python `s.upper()` (ASCII). -/
def upperStr (s : String) : String := ⟨s.data.map charUpper⟩

/-- Python `s.lower()` (ASCII). -/
def lowerStr (s : String) : String := ⟨s.data.map charLower⟩

/-- Python `s.strip()`: drop leading and trailing whitespace. -/
def trimStr (s : String) : String :=
  ⟨((s.data.dropWhile Char.isWhitespace).reverse.dropWhile Char.isWhitespace).reverse⟩

/-- Python `s.split()` (split on whitespace runs, dropping empty pieces),
over a character list. -/
def splitOnWs (l : List Char) : List (List Char) :=
  (l.foldr
    (fun c acc =>
      if c.isWhitespace then [] :: acc
      else
        match acc with
        | [] => [[c]]
        | w :: ws => (c :: w) :: ws)
    []).filter (fun w => w ≠ [])

/-- `" ".join(words)` over character lists. -/
def joinWords : List (List Char) → List Char
  | [] => []
  | [w] => w
  | w :: ws => w ++ ' ' :: joinWords ws

/-- `_norm` of `app/utils/text.py` on ASCII data: lower-case, strip, collapse
whitespace runs to single spaces (Python `" ".join(s.split())`).  The NFKD
accent-stripping step is the identity on ASCII strings, and `pd.isna` inputs
are modelled as the empty string (the callers `fillna("")` first). -/
def normText (s : String) : String :=
  ⟨joinWords (splitOnWs (s.data.map charLower))⟩

/-- `cfg_map = {str(r["tipo"]).lower(): int(r["cantidad"]) ...}` built from the
`stock_minimo_config` rows (tipo, cantidad).  Rows with a null `cantidad` are
dropped before this point, so the input carries plain `Int` quantities. -/
def mkCfgMap (cfg : List (String × Int)) : List (String × Int) :=
  cfg.map (fun p => (lowerStr p.1, p.2))

/-- Python `x or 0` applied to a nullable integer column value: `None` and `0`
are falsy and give `0`; any other integer is returned unchanged.  Note that a
negative value is truthy and passes through un-clamped. -/
def pyOrZero : Option Int → Int
  | none => 0
  | some v => if v = 0 then 0 else v

/-- First-occurrence de-duplication, as performed by `pandas.unique` (and used
for iterating `groupby` keys; for the per-item passes the key order is
irrelevant since items are processed independently). -/
def uniqueFirst (l : List String) : List String :=
  l.foldl (fun acc x => if acc.contains x then acc else acc ++ [x]) []

/-- Stable insertion step: place `x` before the first element `y` with
`le x y = true`, after every earlier element that must stay in front. -/
def insertByLe (le : α → α → Bool) (x : α) : List α → List α
  | [] => [x]
  | y :: ys => if le x y then x :: y :: ys else y :: insertByLe le x ys

/-- Stable sort by the comparator `le` (`le a b = true` meaning `a` may come
before `b`).  Models pandas `sort_values` in its stable regime: ties keep
their original relative order. -/
def sortByLe (le : α → α → Bool) : List α → List α
  | [] => []
  | x :: xs => insertByLe le x (sortByLe le xs)

theorem insertByLe_perm (le : α → α → Bool) (x : α) (l : List α) :
    (insertByLe le x l).Perm (x :: l) := by
  induction l with
  | nil => simp [insertByLe]
  | cons y ys ih =>
    by_cases h : le x y = true
    · simp [insertByLe, h]
    · simp only [insertByLe, h, if_false]
      exact ((ih.cons y).trans (List.Perm.swap x y ys))

theorem sortByLe_perm (le : α → α → Bool) (l : List α) :
    (sortByLe le l).Perm l := by
  induction l with
  | nil => simp [sortByLe]
  | cons x xs ih =>
    exact (insertByLe_perm le x (sortByLe le xs)).trans (ih.cons x)

theorem mem_insertByLe {le : α → α → Bool} {x a : α} {l : List α} :
    a ∈ insertByLe le x l ↔ a = x ∨ a ∈ l := by
  constructor
  · intro h
    have := (insertByLe_perm le x l).mem_iff.mp h
    simpa using this
  · intro h
    exact (insertByLe_perm le x l).mem_iff.mpr (by simpa using h)

theorem pairwise_insertByLe {le : α → α → Bool}
    (htot : ∀ a b, le a b = true ∨ le b a = true)
    (htrans : ∀ a b c, le a b = true → le b c = true → le a c = true)
    {x : α} {l : List α}
    (hl : l.Pairwise (fun a b => le a b = true)) :
    (insertByLe le x l).Pairwise (fun a b => le a b = true) := by
  induction l with
  | nil => simp [insertByLe]
  | cons y ys ih =>
    rcases List.pairwise_cons.mp hl with ⟨hy, hys⟩
    by_cases h : le x y = true
    · rw [show insertByLe le x (y :: ys) = x :: y :: ys by simp [insertByLe, h]]
      refine List.pairwise_cons.mpr ⟨?_, hl⟩
      intro b hb
      rcases List.mem_cons.mp hb with rfl | hb
      · exact h
      · exact htrans x y b h (hy b hb)
    · rw [show insertByLe le x (y :: ys) = y :: insertByLe le x ys by
        simp [insertByLe, h]]
      refine List.pairwise_cons.mpr ⟨?_, ih hys⟩
      intro b hb
      rcases mem_insertByLe.mp hb with hb | hb
      · rw [hb]
        rcases htot x y with hxy | hyx
        · exact absurd hxy h
        · exact hyx
      · exact hy b hb

theorem pairwise_sortByLe {le : α → α → Bool}
    (htot : ∀ a b, le a b = true ∨ le b a = true)
    (htrans : ∀ a b c, le a b = true → le b c = true → le a c = true)
    (l : List α) :
    (sortByLe le l).Pairwise (fun a b => le a b = true) := by
  induction l with
  | nil => simp [sortByLe]
  | cons x xs ih => exact pairwise_insertByLe htot htrans ih

/-- `df.sort_values(col, ascending=False)`: a sort driven by the key alone,
descending.  The comparator reads only the key, never another column.  The
source's default quicksort gives no stability guarantee for tied runs of 17
or more rows; this model produces the tie order of numpy's insertion-sort
regime (exact for the at-most-two-row groups evaluated concretely below),
and no stated property relies on the tie order beyond those evaluations. -/
def sortDescBy (key : α → Int) : List α → List α :=
  sortByLe (fun a b => decide (key b ≤ key a))

theorem sortDescBy_perm (key : α → Int) (l : List α) :
    (sortDescBy key l).Perm l :=
  sortByLe_perm _ l

theorem sortDescBy_sorted (key : α → Int) (l : List α) :
    (sortDescBy key l).Pairwise (fun a b => key b ≤ key a) := by
  have h := @pairwise_sortByLe _ (fun a b => decide (key b ≤ key a))
    (fun a b => by rcases le_total (key b) (key a) with h | h <;> simp [h])
    (fun a b c hab hbc => by
      simp only [decide_eq_true_eq] at hab hbc ⊢
      exact le_trans hbc hab)
    l
  exact h.imp (fun hab => by simpa using hab)

theorem insertByLe_map_key (key : α → Int) (f : α → α)
    (hf : ∀ a, key (f a) = key a) (x : α) (l : List α) :
    insertByLe (fun a b => decide (key b ≤ key a)) (f x) (l.map f)
      = (insertByLe (fun a b => decide (key b ≤ key a)) x l).map f := by
  induction l with
  | nil => rfl
  | cons y ys ih =>
    by_cases h : key y ≤ key x
    · simp [insertByLe, hf, h]
    · simp [insertByLe, hf, h, ih]

/-- The modelled `sort_values` is driven by the key alone: any rewriting of
the rows that preserves the sort key commutes with the sort.  (This also
holds for the source's unstable quicksort, whose output permutation is a
function of the key column only.) -/
theorem sortDescBy_map (key : α → Int) (f : α → α)
    (hf : ∀ a, key (f a) = key a) (l : List α) :
    sortDescBy key (l.map f) = (sortDescBy key l).map f := by
  induction l with
  | nil => rfl
  | cons x xs ih =>
    rw [List.map_cons]
    show insertByLe (fun a b => decide (key b ≤ key a)) (f x)
        (sortDescBy key (List.map f xs))
      = List.map f (insertByLe (fun a b => decide (key b ≤ key a)) x (sortDescBy key xs))
    rw [ih]
    exact insertByLe_map_key key f hf x (sortDescBy key xs)

/-! ### Data model

Row types for the SQL result frames consumed by
`get_reabastecimiento_avanzado` (the embedding starts where the data frames
have been loaded; the SQL text is the data source, not part of the modelled
algorithm). -/

/-- A row of `config_tiendas` as used after loading: canonical name, region
and the fixed-store flag (`fija`, an integer 0/1 column).  `raw_name` and
`tipo_tienda` are only used inside the SQL joins and are not needed here. -/
structure ConfigTienda where
  clean_name : String
  region : String
  fija : Int
deriving DecidableEq

/-- A row of the base replenishment frame `df` (the SQL of lines 81-117 of
`reabastecimiento_service.py`): joined sales/stock snapshot per (store, item),
with `stock_bodega` from the warehouse join (`COALESCE(...,0)`) and
`ventas_periodo` the replenishment-window sales sum (`COALESCE(...,0)`).
`stock_actual` (`s.saldo_disponible`) is nullable. -/
structure VentaSaldoRow where
  c_barra : String
  d_marca : String
  tienda : String
  color : String
  stock_actual : Option Int
  stock_bodega : Int
  ventas_periodo : Int
deriving DecidableEq

/-- A row of `df_exp`: expansion-window sales per (item, store). -/
structure ExpVentasRow where
  c_barra : String
  tienda : String
  ventas_expansion : Int
deriving DecidableEq

/-- A row of `info_ref` (`SELECT DISTINCT c_barra, d_marca, color ...`). -/
structure InfoRefRow where
  c_barra : String
  d_marca : String
  color : String
deriving DecidableEq

/-- One caller-supplied new-item introduction (`nuevos_codigos` entries). -/
structure NuevoCodigo where
  c_barra : String
  d_marca : String
  color : String
deriving DecidableEq

/-- All data consumed by `get_reabastecimiento_avanzado` after the SQL layer:
configuration tables, the loaded frames, and the caller parameters that the
allocation logic reads.  `bodega` is the grouped
`inventario_bodega_raw` result (one `(c_barra, SUM(saldo_disponibles))` row
per raw barcode); `existencias` is the `(tienda, c_barra)` pair list of
`df_existencias`. -/
structure ReabInput where
  cfg : List (String × Int)
  referencias_fijas : List String
  marcas_multimarca : List String
  codigos_excluidos : List String
  config_tiendas : List ConfigTienda
  df : List VentaSaldoRow
  df_exp : List ExpVentasRow
  bodega : List (String × Int)
  info_ref : List InfoRefRow
  existencias : List (String × String)
  nuevos_codigos : List NuevoCodigo
  ventas_min_exp : Int
deriving DecidableEq

/-- A working row of the pipeline's main frame `df` with all derived columns.
`es_tienda_fija` and `prioridad_tienda` are only ever populated (and read) for
base-pass rows; synthetic EXPANSION/NUEVO rows carry the placeholder 0 (in the
source these cells are simply missing and never read). -/
structure Row where
  region : String
  tienda : String
  tienda_norm : String
  c_barra : String
  d_marca : String
  color : String
  ventas_periodo : Int
  stock_actual : Option Int
  stock_bodega : Int
  stock_bodega_restante : Int
  stock_minimo_dinamico : Int
  cantidad_asignada_real : Int
  cantidad_a_despachar : Int
  observacion : String
  es_tienda_fija : Int
  prioridad_tienda : Int
deriving DecidableEq

/-! ### Shared derived configuration -/

/-- `ref_set = set(r.strip().upper() for r in referencias_fijas if r)`
(replenishment pipeline and `consultas.py`). -/
def refSetStrip (refs : List String) : List String :=
  (refs.filter (fun r => r != "")).map (fun r => upperStr (trimStr r))

/-- `marca_set = set(m.strip().upper() for m in marcas_multimarca if m)`
(replenishment pipeline and `consultas.py`). -/
def marcaSetStrip (ms : List String) : List String :=
  (ms.filter (fun m => m != "")).map (fun m => upperStr (trimStr m))

/-- `tiendas_fijas_set` / `fija_set`: normalized clean names of the stores
with `fija == 1`. -/
def fijaSetOf (cts : List ConfigTienda) : List String :=
  (cts.filter (fun t => t.fija == 1)).map (fun t => normText t.clean_name)

/-- `region_map = dict(zip(clean_norm, region))` followed by
`.map(region_map).fillna("SIN REGION")` resp. `region_map.get(tn, "SIN
REGION")`: the region of the last `config_tiendas` row whose normalized clean
name matches, defaulting to `"SIN REGION"`. -/
def regionGet (cts : List ConfigTienda) (tn : String) : String :=
  match cts.reverse.find? (fun t => normText t.clean_name == tn) with
  | some t => t.region
  | none => "SIN REGION"

/-- `stock_bodega_map` lookup: the map is keyed by the uppercased grouped
barcode (`dict(zip(...))`, later duplicate keys overwriting earlier ones) and
read with `.get(code, 0)`. -/
def stockBodegaGet (bodega : List (String × Int)) (code : String) : Int :=
  dictGet (bodega.map (fun p => (upperStr p.1, p.2))) code 0

/-! ### Stock-minimum resolvers -/

/-- `calcular_stock_min` of `reabastecimiento_service.py` (lines 174-188):
rule cascade over the uppercased barcode and brand, with the store-fixedness
of the row deciding between `fijo_especial` and `fijo_normal`. -/
def calcular_stock_min (cfgm : List (String × Int))
    (refSet marcaSet fijasSet : List String)
    (c_barra d_marca tienda_norm : String) : Int :=
  let code := upperStr c_barra
  let marca := upperStr d_marca
  if refSet.contains code then
    dictGet cfgm
      (if fijasSet.contains tienda_norm then "fijo_especial" else "fijo_normal") 5
  else if marcaSet.contains marca then
    dictGet cfgm "multimarca" 2
  else if strContains code "JGL" || strContains marca "JGL" then
    dictGet cfgm "jgl" 3
  else if strContains code "JGM" || strContains marca "JGM" then
    dictGet cfgm "jgm" 3
  else
    dictGet cfgm "default" 4

/-! ### Replenishment pipeline (`get_reabastecimiento_avanzado`) -/

/-- `cantidad_a_despachar` (lines 192-197): requested quantity of a base row.
`(r["stock_actual"] or 0)` is Python truthiness (`pyOrZero`), and the
condition is `ventas_periodo > 0 or c_barra.upper() in ref_set`. -/
def cantidadADespachar (refSet : List String) (c_barra : String)
    (ventas_periodo stock_minimo : Int) (stock_actual : Option Int) : Int :=
  if ventas_periodo > 0 || refSet.contains (upperStr c_barra) then
    max (stock_minimo - pyOrZero stock_actual) 0
  else 0

/-- Derivation of one base working row (lines 162-206): normalization, region,
dynamic stock minimum, requested quantity, fixed-store flag, priority,
`cantidad_asignada_real = 0` and `stock_bodega_restante = stock_bodega`. -/
def mkBaseRow (cfgm : List (String × Int)) (refSet marcaSet fijasSet : List String)
    (cts : List ConfigTienda) (v : VentaSaldoRow) : Row :=
  let tn := normText v.tienda
  let sm := calcular_stock_min cfgm refSet marcaSet fijasSet v.c_barra v.d_marca tn
  let es : Int := if fijasSet.contains tn then 1 else 0
  { region := regionGet cts tn
    tienda := v.tienda
    tienda_norm := tn
    c_barra := v.c_barra
    d_marca := v.d_marca
    color := v.color
    ventas_periodo := v.ventas_periodo
    stock_actual := v.stock_actual
    stock_bodega := v.stock_bodega
    stock_bodega_restante := v.stock_bodega
    stock_minimo_dinamico := sm
    cantidad_asignada_real := 0
    cantidad_a_despachar := cantidadADespachar refSet v.c_barra v.ventas_periodo sm v.stock_actual
    observacion := ""
    es_tienda_fija := es
    prioridad_tienda := es * 100 + v.ventas_periodo }

/-- The base allocation walk (lines 212-221) over one item's rows, already
sorted by priority: stop on exhausted stock, skip non-positive demand,
otherwise allocate `min(demand, stock)` and decrement.  Returns the updated
rows together with the remaining stock. -/
def asignarBaseLoop : Int → List Row → List Row × Int
  | stock, [] => ([], stock)
  | stock, r :: rs =>
    if stock ≤ 0 then (r :: rs, stock)
    else if r.cantidad_a_despachar ≤ 0 then
      let p := asignarBaseLoop stock rs
      (r :: p.1, p.2)
    else
      let a := min r.cantidad_a_despachar stock
      let p := asignarBaseLoop (stock - a) rs
      ({ r with cantidad_asignada_real := a } :: p.1, p.2)

/-- One base-pass group (lines 208-223): start from the first row's
`stock_bodega`, sort by `prioridad_tienda` descending, walk, then write the
final remaining stock into every row of the group. -/
def procesarGrupoBase (g : List Row) : List Row :=
  match g with
  | [] => []
  | r0 :: _ =>
    let p := asignarBaseLoop r0.stock_bodega
      (sortDescBy (fun r => r.prioridad_tienda) g)
    p.1.map (fun r => { r with stock_bodega_restante := p.2 })

/-- Group keys in first-occurrence order (the groups are processed
independently, so the key order is immaterial). -/
def keysOf (l : List Row) : List String :=
  uniqueFirst (l.map (fun r => r.c_barra))

/-- The base allocation pass: `df.groupby("c_barra")` + the inner walk. -/
def pasoBase (df : List Row) : List Row :=
  (keysOf df).flatMap (fun c => procesarGrupoBase (df.filter (fun r => r.c_barra == c)))

/-- The base status label (lines 228-235). -/
def observacionDe (r : Row) : String :=
  if r.cantidad_a_despachar = 0 then "OK"
  else if r.cantidad_asignada_real > 0 then "REABASTECER"
  else "COMPRA"

/-- `df["observacion"] = df.apply(...)` after the base pass. -/
def etiquetarBase (l : List Row) : List Row :=
  l.map (fun r => { r with observacion := observacionDe r })

/-- `tiendas_all`: unique non-null clean names, minus the warehouse
pseudo-store (line 166: names containing "bodega jagi", case-insensitive). -/
def tiendasAll (cts : List ConfigTienda) : List String :=
  (uniqueFirst (cts.map (fun t => t.clean_name))).filter
    (fun t => !(strContains (lowerStr t) "bodega jagi"))

/-- Synthetic EXPANSION rows (lines 240-284): for every qualifying
`df_exp` row (expansion-window sales at or above the threshold, code not
excluded), one zero-stock row per store that does not already carry the item,
requesting the `default` policy minimum over the item's total warehouse
quantity. -/
def expRowsOf (inp : ReabInput) : List Row :=
  let cfgm := mkCfgMap inp.cfg
  let existentes := inp.existencias.map (fun p => (normText p.1, upperStr p.2))
  (inp.df_exp.filter (fun e =>
      inp.ventas_min_exp ≤ e.ventas_expansion
        && !(inp.codigos_excluidos.contains e.c_barra))).flatMap (fun e =>
    let code := upperStr e.c_barra
    let stock_real := stockBodegaGet inp.bodega code
    let info := inp.info_ref.find? (fun i => upperStr i.c_barra == code)
    let marca := match info with | some i => i.d_marca | none => "SIN MARCA"
    let color := match info with | some i => i.color | none => "SIN COLOR"
    (tiendasAll inp.config_tiendas).filterMap (fun tienda =>
      let tn := normText tienda
      if existentes.contains (tn, code) then none
      else some
        { region := regionGet inp.config_tiendas tn
          tienda := tienda
          tienda_norm := tn
          c_barra := code
          d_marca := marca
          color := color
          ventas_periodo := 0
          stock_actual := some 0
          stock_bodega := stock_real
          stock_bodega_restante := stock_real
          stock_minimo_dinamico := dictGet cfgm "default" 4
          cantidad_asignada_real := 0
          cantidad_a_despachar := dictGet cfgm "default" 4
          observacion := "EXPANSION"
          es_tienda_fija := 0
          prioridad_tienda := 0 }))

/-- The expansion-only allocation walk (lines 294-302): stop on exhausted
stock, allocate `min(demand, stock)` unconditionally otherwise. -/
def asignarExpLoop : Int → List Row → List Row × Int
  | stock, [] => ([], stock)
  | stock, r :: rs =>
    if stock ≤ 0 then (r :: rs, stock)
    else
      let a := min r.cantidad_a_despachar stock
      let p := asignarExpLoop (stock - a) rs
      ({ r with cantidad_asignada_real := a } :: p.1, p.2)

/-- One expansion-pass group (lines 291-304). -/
def procesarGrupoExp (g : List Row) : List Row :=
  match g with
  | [] => []
  | r0 :: _ =>
    let p := asignarExpLoop r0.stock_bodega g
    p.1.map (fun r => { r with stock_bodega_restante := p.2 })

/-- The expansion allocation pass over `df[df["observacion"]=="EXPANSION"]`.
The untouched rows are kept; the processed groups are re-appended (their
position inside the frame is irrelevant to every later step except that they
stay ahead of the NUEVO rows appended afterwards, as in the source). -/
def pasoExp (df : List Row) : List Row :=
  let sp := df.filter (fun r => r.observacion == "EXPANSION")
  let rest := df.filter (fun r => !(r.observacion == "EXPANSION"))
  rest ++ (keysOf sp).flatMap (fun c => procesarGrupoExp (sp.filter (fun r => r.c_barra == c)))

/-- Synthetic NUEVO rows (lines 310-347): for every caller-introduced item,
one row per store requesting the dynamically resolved minimum (store-fixed
aware) over the item's total warehouse quantity. -/
def nuevoRowsOf (inp : ReabInput) : List Row :=
  let cfgm := mkCfgMap inp.cfg
  let refSet := refSetStrip inp.referencias_fijas
  let marcaSet := marcaSetStrip inp.marcas_multimarca
  let fijasSet := fijaSetOf inp.config_tiendas
  inp.nuevos_codigos.flatMap (fun c =>
    let code := upperStr c.c_barra
    let stock_real := stockBodegaGet inp.bodega code
    (tiendasAll inp.config_tiendas).map (fun tienda =>
      let tn := normText tienda
      let sm := calcular_stock_min cfgm refSet marcaSet fijasSet code c.d_marca tn
      { region := regionGet inp.config_tiendas tn
        tienda := tienda
        tienda_norm := tn
        c_barra := code
        d_marca := c.d_marca
        color := c.color
        ventas_periodo := 0
        stock_actual := some 0
        stock_bodega := stock_real
        stock_bodega_restante := stock_real
        stock_minimo_dinamico := sm
        cantidad_asignada_real := 0
        cantidad_a_despachar := sm
        observacion := "NUEVO"
        es_tienda_fija := 0
        prioridad_tienda := 0 }))

/-- The EXPANSION+NUEVO walk (lines 357-377): skip non-positive demand;
an EXPANSION row stops the walk when stock is exhausted; a NUEVO row consumes
stock when available and is otherwise force-assigned its full demand. -/
def asignarEspecialLoop : Int → List Row → List Row × Int
  | stock, [] => ([], stock)
  | stock, r :: rs =>
    if r.cantidad_a_despachar ≤ 0 then
      let p := asignarEspecialLoop stock rs
      (r :: p.1, p.2)
    else if r.observacion == "EXPANSION" then
      if stock ≤ 0 then (r :: rs, stock)
      else
        let a := min r.cantidad_a_despachar stock
        let p := asignarEspecialLoop (stock - a) rs
        ({ r with cantidad_asignada_real := a } :: p.1, p.2)
    else
      if stock > 0 then
        let a := min r.cantidad_a_despachar stock
        let p := asignarEspecialLoop (stock - a) rs
        ({ r with cantidad_asignada_real := a } :: p.1, p.2)
      else
        let p := asignarEspecialLoop stock rs
        ({ r with cantidad_asignada_real := r.cantidad_a_despachar } :: p.1, p.2)

/-- One EXPANSION+NUEVO group (lines 354-379); the remaining stock written
back is clamped with `max(stock, 0)`. -/
def procesarGrupoEspecial (g : List Row) : List Row :=
  match g with
  | [] => []
  | r0 :: _ =>
    let p := asignarEspecialLoop r0.stock_bodega g
    p.1.map (fun r => { r with stock_bodega_restante := max p.2 0 })

/-- The EXPANSION+NUEVO allocation pass over
`df[df["observacion"].isin(["EXPANSION", "NUEVO"])]`. -/
def pasoEspecial (df : List Row) : List Row :=
  let sp := df.filter (fun r => r.observacion == "EXPANSION" || r.observacion == "NUEVO")
  let rest := df.filter (fun r => !(r.observacion == "EXPANSION" || r.observacion == "NUEVO"))
  rest ++ (keysOf sp).flatMap (fun c => procesarGrupoEspecial (sp.filter (fun r => r.c_barra == c)))

/-- The derived base frame (after lines 152-206): warehouse pseudo-store rows
dropped, all derived columns added. -/
def reabDf0 (inp : ReabInput) : List Row :=
  (inp.df.filter (fun v => !(strContains (lowerStr v.tienda) "bodega jagi"))).map
    (mkBaseRow (mkCfgMap inp.cfg) (refSetStrip inp.referencias_fijas)
      (marcaSetStrip inp.marcas_multimarca) (fijaSetOf inp.config_tiendas)
      inp.config_tiendas)

/-- The frame after the base pass and the status labelling (line 235). -/
def reabDf1 (inp : ReabInput) : List Row :=
  etiquetarBase (pasoBase (reabDf0 inp))

/-- The frame after appending EXPANSION rows and running the expansion pass
(line 304). -/
def reabDf3 (inp : ReabInput) : List Row :=
  pasoExp (reabDf1 inp ++ expRowsOf inp)

/-- The frame after appending NUEVO rows and running the EXPANSION+NUEVO pass
(line 379). -/
def reabDf5 (inp : ReabInput) : List Row :=
  pasoEspecial (reabDf3 inp ++ nuevoRowsOf inp)

/-- The returned result (lines 384-400): rows labelled `OK` dropped.  The
final `sort_values` is a permutation of the rows and is omitted — every
property stated about the result is a membership property. -/
def get_reabastecimiento_avanzado (inp : ReabInput) : List Row :=
  (reabDf5 inp).filter (fun r => !(r.observacion == "OK"))

/-- Total `cantidad_asignada_real` of a list of rows. -/
def allocSum (l : List Row) : Int :=
  (l.map (fun r => r.cantidad_asignada_real)).sum

/-- Total clamped demand of the non-EXPANSION (i.e. NUEVO) rows of a group:
the most the forced allocations of the special pass can add. -/
def nuevoDemandSum (l : List Row) : Int :=
  ((l.filter (fun r => !(r.observacion == "EXPANSION"))).map
    (fun r => max r.cantidad_a_despachar 0)).sum

theorem allocSum_nil : allocSum [] = 0 := rfl

theorem allocSum_cons (r : Row) (l : List Row) :
    allocSum (r :: l) = r.cantidad_asignada_real + allocSum l := by
  simp [allocSum]

theorem allocSum_eq_zero {l : List Row}
    (h : ∀ r ∈ l, r.cantidad_asignada_real = 0) : allocSum l = 0 := by
  unfold allocSum
  apply List.sum_eq_zero
  intro x hx
  rcases List.mem_map.mp hx with ⟨r, hr, rfl⟩
  exact h r hr

theorem nuevoDemandSum_cons (r : Row) (l : List Row) :
    nuevoDemandSum (r :: l)
      = (if r.observacion == "EXPANSION" then 0 else max r.cantidad_a_despachar 0)
        + nuevoDemandSum l := by
  by_cases h : r.observacion == "EXPANSION" <;>
    simp [nuevoDemandSum, List.filter_cons, h]

theorem nuevoDemandSum_nonneg (l : List Row) : 0 ≤ nuevoDemandSum l := by
  unfold nuevoDemandSum
  apply List.sum_nonneg
  intro x hx
  rcases List.mem_map.mp hx with ⟨r, _, rfl⟩
  exact le_max_right _ _

/-- The base walk allocates at most the stock it starts from (rows enter a
pass with `cantidad_asignada_real = 0`, as they do in the source). -/
theorem asignarBaseLoop_le (stock : Int) (rows : List Row)
    (h0 : ∀ r ∈ rows, r.cantidad_asignada_real = 0) (hs : 0 ≤ stock) :
    allocSum (asignarBaseLoop stock rows).1 ≤ stock := by
  induction rows generalizing stock with
  | nil => simpa [asignarBaseLoop, allocSum] using hs
  | cons r rs ih =>
    have h0r : r.cantidad_asignada_real = 0 := h0 r (List.mem_cons_self r rs)
    have h0rs : ∀ x ∈ rs, x.cantidad_asignada_real = 0 :=
      fun x hx => h0 x (List.mem_cons_of_mem r hx)
    by_cases h1 : stock ≤ 0
    · rw [show asignarBaseLoop stock (r :: rs) = (r :: rs, stock) by
        simp [asignarBaseLoop, h1]]
      rw [show allocSum (r :: rs) = 0 from allocSum_eq_zero h0]
      exact hs
    · by_cases h2 : r.cantidad_a_despachar ≤ 0
      · rw [show asignarBaseLoop stock (r :: rs)
            = (r :: (asignarBaseLoop stock rs).1, (asignarBaseLoop stock rs).2) by
          simp [asignarBaseLoop, h1, h2]]
        have hrec := ih stock h0rs hs
        rw [allocSum_cons, h0r]
        omega
      · rw [show asignarBaseLoop stock (r :: rs)
            = ({ r with cantidad_asignada_real := min r.cantidad_a_despachar stock }
                :: (asignarBaseLoop (stock - min r.cantidad_a_despachar stock) rs).1,
               (asignarBaseLoop (stock - min r.cantidad_a_despachar stock) rs).2) by
          simp [asignarBaseLoop, h1, h2]]
        have hle : min r.cantidad_a_despachar stock ≤ stock := min_le_right _ _
        have hrec := ih (stock - min r.cantidad_a_despachar stock) h0rs (by omega)
        rw [allocSum_cons]
        have hproj : ({ r with cantidad_asignada_real := min r.cantidad_a_despachar stock }
            : Row).cantidad_asignada_real = min r.cantidad_a_despachar stock := rfl
        rw [hproj]
        omega

/-- The expansion walk allocates at most the stock it starts from. -/
theorem asignarExpLoop_le (stock : Int) (rows : List Row)
    (h0 : ∀ r ∈ rows, r.cantidad_asignada_real = 0) (hs : 0 ≤ stock) :
    allocSum (asignarExpLoop stock rows).1 ≤ stock := by
  induction rows generalizing stock with
  | nil => simpa [asignarExpLoop, allocSum] using hs
  | cons r rs ih =>
    have h0rs : ∀ x ∈ rs, x.cantidad_asignada_real = 0 :=
      fun x hx => h0 x (List.mem_cons_of_mem r hx)
    by_cases h1 : stock ≤ 0
    · rw [show asignarExpLoop stock (r :: rs) = (r :: rs, stock) by
        simp [asignarExpLoop, h1]]
      rw [show allocSum (r :: rs) = 0 from allocSum_eq_zero h0]
      exact hs
    · rw [show asignarExpLoop stock (r :: rs)
          = ({ r with cantidad_asignada_real := min r.cantidad_a_despachar stock }
              :: (asignarExpLoop (stock - min r.cantidad_a_despachar stock) rs).1,
             (asignarExpLoop (stock - min r.cantidad_a_despachar stock) rs).2) by
        simp [asignarExpLoop, h1]]
      have hle : min r.cantidad_a_despachar stock ≤ stock := min_le_right _ _
      have hrec := ih (stock - min r.cantidad_a_despachar stock) h0rs (by omega)
      rw [allocSum_cons]
      have hproj : ({ r with cantidad_asignada_real := min r.cantidad_a_despachar stock }
          : Row).cantidad_asignada_real = min r.cantidad_a_despachar stock := rfl
      rw [hproj]
      omega

/-- The EXPANSION+NUEVO walk allocates at most the stock it starts from
plus the total clamped demand of its NUEVO rows (the forced allocations). -/
theorem asignarEspecialLoop_le (stock : Int) (rows : List Row)
    (h0 : ∀ r ∈ rows, r.cantidad_asignada_real = 0) (hs : 0 ≤ stock) :
    allocSum (asignarEspecialLoop stock rows).1 ≤ stock + nuevoDemandSum rows := by
  induction rows generalizing stock with
  | nil =>
    rw [show asignarEspecialLoop stock [] = ([], stock) from rfl]
    simpa [allocSum, nuevoDemandSum] using hs
  | cons r rs ih =>
    have h0rs : ∀ x ∈ rs, x.cantidad_asignada_real = 0 :=
      fun x hx => h0 x (List.mem_cons_of_mem r hx)
    have hnds : 0 ≤ nuevoDemandSum rs := nuevoDemandSum_nonneg rs
    have hterm : (0 : Int) ≤ (if r.observacion == "EXPANSION" then 0
        else max r.cantidad_a_despachar 0) := by
      by_cases hobs : r.observacion == "EXPANSION" <;> simp [hobs]
    by_cases hd : r.cantidad_a_despachar ≤ 0
    · rw [show asignarEspecialLoop stock (r :: rs)
          = (r :: (asignarEspecialLoop stock rs).1, (asignarEspecialLoop stock rs).2) by
        simp [asignarEspecialLoop, hd]]
      have hrec := ih stock h0rs hs
      rw [allocSum_cons, h0 r (List.mem_cons_self r rs), nuevoDemandSum_cons]
      omega
    · by_cases hobs : r.observacion == "EXPANSION"
      · by_cases h1 : stock ≤ 0
        · rw [show asignarEspecialLoop stock (r :: rs) = (r :: rs, stock) by
            simp [asignarEspecialLoop, hd, hobs, h1]]
          rw [show allocSum (r :: rs) = 0 from allocSum_eq_zero h0]
          have := nuevoDemandSum_nonneg (r :: rs)
          omega
        · rw [show asignarEspecialLoop stock (r :: rs)
              = ({ r with cantidad_asignada_real := min r.cantidad_a_despachar stock }
                  :: (asignarEspecialLoop (stock - min r.cantidad_a_despachar stock) rs).1,
                 (asignarEspecialLoop (stock - min r.cantidad_a_despachar stock) rs).2) by
            simp [asignarEspecialLoop, hd, hobs, h1]]
          have hle : min r.cantidad_a_despachar stock ≤ stock := min_le_right _ _
          have hrec := ih (stock - min r.cantidad_a_despachar stock) h0rs (by omega)
          rw [allocSum_cons, nuevoDemandSum_cons]
          have hproj : ({ r with cantidad_asignada_real := min r.cantidad_a_despachar stock }
              : Row).cantidad_asignada_real = min r.cantidad_a_despachar stock := rfl
          rw [hproj]
          omega
      · by_cases h1 : stock > 0
        · rw [show asignarEspecialLoop stock (r :: rs)
              = ({ r with cantidad_asignada_real := min r.cantidad_a_despachar stock }
                  :: (asignarEspecialLoop (stock - min r.cantidad_a_despachar stock) rs).1,
                 (asignarEspecialLoop (stock - min r.cantidad_a_despachar stock) rs).2) by
            simp [asignarEspecialLoop, hd, hobs, h1]]
          have hle : min r.cantidad_a_despachar stock ≤ stock := min_le_right _ _
          have hrec := ih (stock - min r.cantidad_a_despachar stock) h0rs (by omega)
          rw [allocSum_cons, nuevoDemandSum_cons]
          have hproj : ({ r with cantidad_asignada_real := min r.cantidad_a_despachar stock }
              : Row).cantidad_asignada_real = min r.cantidad_a_despachar stock := rfl
          rw [hproj]
          have hmax : r.cantidad_a_despachar ≤ max r.cantidad_a_despachar 0 := le_max_left _ _
          simp only [hobs]
          omega
        · rw [show asignarEspecialLoop stock (r :: rs)
              = ({ r with cantidad_asignada_real := r.cantidad_a_despachar }
                  :: (asignarEspecialLoop stock rs).1,
                 (asignarEspecialLoop stock rs).2) by
            simp [asignarEspecialLoop, hd, hobs, h1]]
          have hrec := ih stock h0rs hs
          rw [allocSum_cons, nuevoDemandSum_cons]
          have hproj : ({ r with cantidad_asignada_real := r.cantidad_a_despachar }
              : Row).cantidad_asignada_real = r.cantidad_a_despachar := rfl
          rw [hproj]
          have hsup : max r.cantidad_a_despachar 0 = r.cantidad_a_despachar :=
            max_eq_left (not_le.mp hd).le
          simp only [hobs, Bool.false_eq_true, if_false, hsup]
          omega

/-! ### Concrete inputs used by counterexamples and witnesses -/

/-- Python list lexicographic order on code points (`"a" < "b"`), used to
state the tie-break comparison of claim C2. -/
def lexLtChars : List Char → List Char → Bool
  | [], [] => false
  | [], _ :: _ => true
  | _ :: _, [] => false
  | c :: cs, d :: ds => if c < d then true else if d < c then false else lexLtChars cs ds

/-- Python string `<`. -/
def pyStrLt (a b : String) : Bool := lexLtChars a.data b.data

/-- One new item introduced with an empty warehouse: exercises the forced
NUEVO allocation. -/
def inpNuevoSolo : ReabInput :=
  { cfg := [], referencias_fijas := [], marcas_multimarca := [], codigos_excluidos := []
    config_tiendas := [{ clean_name := "T1", region := "N", fija := 0 }]
    df := [], df_exp := [], bodega := [], info_ref := [], existencias := []
    nuevos_codigos := [{ c_barra := "X", d_marca := "M", color := "C" }]
    ventas_min_exp := 3 }

/-- Two stores with equal priority competing for a single warehouse unit;
the base frame lists "Z STORE" before "A STORE". -/
def inpZA : ReabInput :=
  { cfg := [], referencias_fijas := [], marcas_multimarca := [], codigos_excluidos := []
    config_tiendas := [{ clean_name := "A STORE", region := "N", fija := 0 },
                       { clean_name := "Z STORE", region := "N", fija := 0 }]
    df := [{ c_barra := "X", d_marca := "M", tienda := "Z STORE", color := "C",
             stock_actual := some 0, stock_bodega := 1, ventas_periodo := 2 },
           { c_barra := "X", d_marca := "M", tienda := "A STORE", color := "C",
             stock_actual := some 0, stock_bodega := 1, ventas_periodo := 2 }]
    df_exp := [], bodega := [("X", 1)], info_ref := [], existencias := []
    nuevos_codigos := [], ventas_min_exp := 3 }

/-- An item that is both an expansion candidate and a new introduction, with
an empty warehouse: the EXPANSION row of the item precedes its NUEVO row in
the EXPANSION+NUEVO pass. -/
def inpExpNuevo : ReabInput :=
  { cfg := [], referencias_fijas := [], marcas_multimarca := [], codigos_excluidos := []
    config_tiendas := [{ clean_name := "T1", region := "N", fija := 0 }]
    df := [], df_exp := [{ c_barra := "X", tienda := "T0", ventas_expansion := 3 }]
    bodega := [], info_ref := [], existencias := []
    nuevos_codigos := [{ c_barra := "X", d_marca := "M", color := "C" }]
    ventas_min_exp := 3 }

/-- The base pass consumes the full warehouse stock of item X at store T1,
and X also qualifies for expansion to store T2. -/
def inpExpDespues : ReabInput :=
  { cfg := [], referencias_fijas := [], marcas_multimarca := [], codigos_excluidos := []
    config_tiendas := [{ clean_name := "T1", region := "N", fija := 0 },
                       { clean_name := "T2", region := "N", fija := 0 }]
    df := [{ c_barra := "X", d_marca := "M", tienda := "T1", color := "C",
             stock_actual := some 0, stock_bodega := 4, ventas_periodo := 2 }]
    df_exp := [{ c_barra := "X", tienda := "T1", ventas_expansion := 5 }]
    bodega := [("X", 4)]
    info_ref := [{ c_barra := "X", d_marca := "M", color := "C" }]
    existencias := [("T1", "X")]
    nuevos_codigos := [], ventas_min_exp := 3 }

/-- A generic zero-allocated row used to instantiate the universal pass-sum
bounds at a concrete input. -/
def rowW : Row :=
  { region := "N", tienda := "T1", tienda_norm := "t1", c_barra := "X"
    d_marca := "M", color := "C", ventas_periodo := 1, stock_actual := some 0
    stock_bodega := 5, stock_bodega_restante := 5, stock_minimo_dinamico := 3
    cantidad_asignada_real := 0, cantidad_a_despachar := 3, observacion := ""
    es_tienda_fija := 0, prioridad_tienda := 1 }

/-- `rowW` labelled as an EXPANSION row. -/
def rowWExp : Row := { rowW with observacion := "EXPANSION" }

/-- `rowW` labelled as a NUEVO row. -/
def rowWNvo : Row := { rowW with observacion := "NUEVO" }

/-- An all-empty fallback row (only used as the `headD` default of closed
witness statements, where the list is concretely non-empty). -/
def defaultRow : Row :=
  { region := "", tienda := "", tienda_norm := "", c_barra := ""
    d_marca := "", color := "", ventas_periodo := 0, stock_actual := none
    stock_bodega := 0, stock_bodega_restante := 0, stock_minimo_dinamico := 0
    cantidad_asignada_real := 0, cantidad_a_despachar := 0, observacion := ""
    es_tienda_fija := 0, prioridad_tienda := 0 }

/-! ### Claim C1 -/

/-- Claim C1, counterexample: with an empty warehouse (0 units of item X) and
one new-item introduction, the EXPANSION+NUEVO pass force-assigns the full
requested quantity 4, so the quantities assigned during that pass sum to 4,
which exceeds the 0 units available at the start of the pass. -/
theorem C1_counterexample :
    allocSum ((get_reabastecimiento_avanzado inpNuevoSolo).filter
        (fun r => r.c_barra == "X")) = 4
    ∧ stockBodegaGet inpNuevoSolo.bodega "X" = 0
    ∧ ¬ (allocSum ((get_reabastecimiento_avanzado inpNuevoSolo).filter
          (fun r => r.c_barra == "X"))
        ≤ stockBodegaGet inpNuevoSolo.bodega "X") := by
  decide

/-- Claim C1 (amended): for rows entering a pass unassigned and a non-negative
starting warehouse quantity, the base pass and the expansion pass assign in
total at most the quantity available at the start of the pass; the
EXPANSION+NUEVO pass respects the same bound only up to the total (clamped)
requested quantity of its NUEVO rows, which forced allocations may add on top
of the available stock. -/
theorem C1_pass_sums :
    (∀ (stock : Int) (rows : List Row),
        (∀ r ∈ rows, r.cantidad_asignada_real = 0) → 0 ≤ stock →
        allocSum (asignarBaseLoop stock rows).1 ≤ stock)
    ∧ (∀ (stock : Int) (rows : List Row),
        (∀ r ∈ rows, r.cantidad_asignada_real = 0) → 0 ≤ stock →
        allocSum (asignarExpLoop stock rows).1 ≤ stock)
    ∧ (∀ (stock : Int) (rows : List Row),
        (∀ r ∈ rows, r.cantidad_asignada_real = 0) → 0 ≤ stock →
        allocSum (asignarEspecialLoop stock rows).1 ≤ stock + nuevoDemandSum rows) :=
  ⟨asignarBaseLoop_le, asignarExpLoop_le, asignarEspecialLoop_le⟩

/-- Witness for `C1_pass_sums` at a concrete stock and row. -/
theorem C1_pass_sums_witness :
    allocSum (asignarBaseLoop 5 [rowW]).1 ≤ 5
    ∧ allocSum (asignarExpLoop 5 [rowWExp]).1 ≤ 5
    ∧ allocSum (asignarEspecialLoop 5 [rowWNvo]).1 ≤ 5 + nuevoDemandSum [rowWNvo] :=
  ⟨C1_pass_sums.1 5 [rowW] (by decide) (by decide),
   C1_pass_sums.2.1 5 [rowWExp] (by decide) (by decide),
   C1_pass_sums.2.2 5 [rowWNvo] (by decide) (by decide)⟩

/-! ### Claim C2 -/

/-- Claim C2, counterexample: two stores with equal priority 2 for item X and
one warehouse unit.  "A STORE" is lexicographically smaller than "Z STORE",
yet the unit goes to "Z STORE" (which precedes it in the frame) and
"A STORE" is allocated 0 — the tie is not broken by canonical store name. -/
theorem C2_counterexample :
    ((get_reabastecimiento_avanzado inpZA).map
        (fun r => (r.tienda, r.prioridad_tienda, r.cantidad_asignada_real))
      = [("Z STORE", 2, 1), ("A STORE", 2, 0)])
    ∧ pyStrLt "A STORE" "Z STORE" = true := by
  decide

/-- Claim C2 (amended): in the base allocation pass the candidates of one
item are processed in priority (100·is_fixed + sales) descending order — the
processed sequence is a permutation of the group sorted by descending
`prioridad_tienda` — but equal-priority candidates are **not** ordered by
canonical store name: the sort consults only the priority column, so any
rewriting of the rows that preserves priorities commutes with it, and the
relative order of tied stores carries no name-based (or, for the source's
unstable quicksort, any other) guarantee.  The smaller-named store is
therefore not necessarily allocated first. -/
theorem C2_sort_behaviour :
    (∀ g : List Row, (sortDescBy (fun r => r.prioridad_tienda) g).Perm g)
    ∧ (∀ g : List Row, (sortDescBy (fun r => r.prioridad_tienda) g).Pairwise
        (fun a b => b.prioridad_tienda ≤ a.prioridad_tienda))
    ∧ (∀ (g : List Row) (f : Row → Row),
        (∀ r, (f r).prioridad_tienda = r.prioridad_tienda) →
        sortDescBy (fun r => r.prioridad_tienda) (g.map f)
          = (sortDescBy (fun r => r.prioridad_tienda) g).map f) :=
  ⟨fun g => sortDescBy_perm _ g,
   fun g => sortDescBy_sorted _ g,
   fun g f hf => sortDescBy_map _ f hf g⟩

/-- Witness for `C2_sort_behaviour`: renaming every store of a concrete
two-row group commutes with the priority sort. -/
theorem C2_sort_behaviour_witness :
    sortDescBy (fun r => r.prioridad_tienda)
        ([rowW, rowWExp].map (fun r => { r with tienda := "RENAMED" }))
      = (sortDescBy (fun r => r.prioridad_tienda) [rowW, rowWExp]).map
          (fun r => { r with tienda := "RENAMED" }) :=
  C2_sort_behaviour.2.2 [rowW, rowWExp]
    (fun r => { r with tienda := "RENAMED" }) (fun _ => rfl)

/-! ### Claim C3 -/

/-- Claim C3 at its failing input: item X has warehouse stock 0, one
EXPANSION row and one NUEVO row.  The EXPANSION+NUEVO pass hits the
`break` on the exhausted EXPANSION row and never reaches the NUEVO row, which
therefore keeps allocation 0 instead of the forced requested quantity 4
promised by the specification (and by the source's own inline comment). -/
theorem C3_forced_alloc_skipped :
    (((get_reabastecimiento_avanzado inpExpNuevo).filter
          (fun r => r.observacion == "NUEVO")).map
        (fun r => (r.tienda, r.cantidad_asignada_real, r.cantidad_a_despachar))
      = [("T1", 0, 4)])
    ∧ stockBodegaGet inpExpNuevo.bodega "X" = 0
    ∧ (((get_reabastecimiento_avanzado inpExpNuevo).filter
          (fun r => r.observacion == "EXPANSION")).map
        (fun r => (r.tienda, r.cantidad_asignada_real, r.cantidad_a_despachar))
      = [("T1", 0, 4)]) := by
  decide

/-! ### Claim C4 -/

/-- Claim C4 as specified: requested quantity with *nonzero* window sales as
the trigger and with missing **or negative** stock clamped to zero. -/
def specRequested (refSet : List String) (c_barra : String)
    (ventas_periodo stock_minimo : Int) (stock_actual : Option Int) : Int :=
  if !(ventas_periodo == 0) || refSet.contains (upperStr c_barra) then
    max (stock_minimo - max (stock_actual.getD 0) 0) 0
  else 0

/-- Claim C4, counterexample: (a) with resolved minimum 4, window sales 1 and
current stock −1, the code requests 5 (the negative stock is subtracted
as-is) while the claim's clamped formula gives 4; (b) with window sales −1
(nonzero but not positive) the code requests 0 while the claim requests 4. -/
theorem C4_counterexample :
    cantidadADespachar [] "X" 1 4 (some (-1)) = 5
    ∧ specRequested [] "X" 1 4 (some (-1)) = 4
    ∧ cantidadADespachar [] "X" (-1) 4 (some 0) = 0
    ∧ specRequested [] "X" (-1) 4 (some 0) = 4 := by
  decide

/-- Claim C4 (amended): the requested quantity of a base row equals
`max(resolved_minimum - stock, 0)` when the window sales are **positive** or
the code is a fixed reference, and 0 otherwise, where a missing stock counts
as zero but a negative stock is used as-is (inflating the request). -/
theorem C4_requested_formula :
    ∀ (refSet : List String) (c : String) (ventas sm : Int) (stock : Option Int),
      cantidadADespachar refSet c ventas sm stock
        = if ventas > 0 || refSet.contains (upperStr c) then
            max (sm - stock.getD 0) 0
          else 0 := by
  intro refSet c ventas sm stock
  unfold cantidadADespachar pyOrZero
  cases stock with
  | none => rfl
  | some v =>
    rcases eq_or_ne v 0 with rfl | hv
    · simp
    · simp [hv]

/-! ### Claim C5 -/

/-- Claim C5: after the base pass every row is labelled `OK` when it requests
nothing, `REABASTECER` when something was allocated, and `COMPRA` otherwise;
and the returned result never contains a row labelled `OK`. -/
theorem C5_status_labels :
    (∀ (inp : ReabInput), ∀ r ∈ reabDf1 inp,
        r.observacion
          = (if r.cantidad_a_despachar = 0 then "OK"
             else if r.cantidad_asignada_real > 0 then "REABASTECER"
             else "COMPRA"))
    ∧ (∀ (inp : ReabInput), ∀ r ∈ get_reabastecimiento_avanzado inp,
        r.observacion ≠ "OK") := by
  constructor
  · intro inp r hr
    unfold reabDf1 etiquetarBase at hr
    rcases List.mem_map.mp hr with ⟨a, _, rfl⟩
    simp [observacionDe]
  · intro inp r hr
    unfold get_reabastecimiento_avanzado at hr
    have h := (List.mem_filter.mp hr).2
    simpa using h

/-- Witness for `C5_status_labels` at a concrete input and row. -/
theorem C5_status_labels_witness :
    (((reabDf1 inpZA).headD defaultRow).observacion
      = (if ((reabDf1 inpZA).headD defaultRow).cantidad_a_despachar = 0 then "OK"
         else if ((reabDf1 inpZA).headD defaultRow).cantidad_asignada_real > 0 then
           "REABASTECER"
         else "COMPRA"))
    ∧ ((get_reabastecimiento_avanzado inpZA).headD defaultRow).observacion ≠ "OK" :=
  ⟨C5_status_labels.1 inpZA _ (by decide), C5_status_labels.2 inpZA _ (by decide)⟩

/-! ### Claim C7 -/

/-- Claim C7: every synthetic EXPANSION/NUEVO row carries the item's total
warehouse quantity re-read from the grouped warehouse table — the planner
passes start from it rather than from the base pass's leftover.  Concretely,
on `inpExpDespues` the base pass leaves 0 units of item X, yet the expansion
pass still allocates all 4 units to the new store. -/
theorem C7_fresh_pass_stock :
    (∀ (inp : ReabInput), ∀ r ∈ expRowsOf inp ++ nuevoRowsOf inp,
        r.stock_bodega = stockBodegaGet inp.bodega r.c_barra)
    ∧ (((get_reabastecimiento_avanzado inpExpDespues).find?
          (fun r => r.observacion == "REABASTECER")).map
        (fun r => r.stock_bodega_restante) = some 0)
    ∧ (((get_reabastecimiento_avanzado inpExpDespues).find?
          (fun r => r.observacion == "EXPANSION")).map
        (fun r => (r.cantidad_asignada_real, r.stock_bodega)) = some (4, 4)) := by
  refine ⟨?_, by decide, by decide⟩
  intro inp r hr
  rcases List.mem_append.mp hr with hr | hr
  · unfold expRowsOf at hr
    rcases List.mem_flatMap.mp hr with ⟨e, _, hre⟩
    rcases List.mem_filterMap.mp hre with ⟨t, _, hrt⟩
    dsimp only at hrt
    split at hrt
    · exact absurd hrt (by simp)
    · rw [Option.some.injEq] at hrt
      subst hrt
      rfl
  · unfold nuevoRowsOf at hr
    rcases List.mem_flatMap.mp hr with ⟨c, _, hrc⟩
    rcases List.mem_map.mp hrc with ⟨t, _, hrt⟩
    subst hrt
    rfl

/-- Witness for the universal part of `C7_fresh_pass_stock`. -/
theorem C7_fresh_pass_stock_witness :
    ((expRowsOf inpExpDespues ++ nuevoRowsOf inpExpDespues).headD defaultRow).stock_bodega
      = stockBodegaGet inpExpDespues.bodega
          ((expRowsOf inpExpDespues ++ nuevoRowsOf inpExpDespues).headD defaultRow).c_barra :=
  C7_fresh_pass_stock.1 inpExpDespues _ (by decide)

/-! ### Redistribution pipelines

Two implementations exist in the source:
`app/services/redistribucion_service.py::get_redistribucion_regional`
(embedded with the `svc` prefix) and
`app/consultas.py::get_redistribucion_regional` (embedded with the `con`
prefix).  Both load the same frames (`redistribucion_repository.py`); the
loaded data is the input below. -/

/-- A row of the recent-sales frame (`fetch_ventas`): canonicalized store
name, barcode, brand, summed window sales (nullable before `fillna`). -/
structure VentaRow where
  tienda_clean : String
  c_barra : String
  d_marca : String
  ventas_periodo : Option Int
deriving DecidableEq

/-- A row of the stock frame (`fetch_existencias`). -/
structure ExistRow where
  tienda_clean : String
  c_barra : String
  d_marca : String
  stock_actual : Option Int
deriving DecidableEq

/-- Everything `get_redistribucion_regional` consumes (both versions load the
same tables; `codigos_excluidos` is fetched by both but used by neither). -/
structure RedisInput where
  cfg : List (String × Int)
  referencias : List String
  marcas : List String
  codigos_excluidos : List String
  config_tiendas : List ConfigTienda
  ventas : List VentaRow
  existencias : List ExistRow
  ventas_min : Int
  tienda_origen : Option String
deriving DecidableEq

/-- A merged working row: stock snapshot with normalization, region, resolved
minimum and window sales. -/
structure RRow where
  tienda_clean : String
  tienda_norm : String
  region : String
  c_barra : String
  d_marca : String
  stock_actual : Int
  stock_minimo : Int
  ventas_periodo : Int
deriving DecidableEq

/-- An output suggestion in the column set shared by both implementations
(the `consultas` version additionally returns stock/sales columns, see
`SugCon`). -/
structure Sug where
  region : String
  c_barra : String
  d_marca : String
  tienda_origen : String
  tienda_destino : String
  cantidad_sugerida : Int
deriving DecidableEq

/-- `ref_set = set(r.upper() for r in referencias_fijas)` of the service
version: no strip, empty strings kept. -/
def redisRefSet (refs : List String) : List String := refs.map upperStr

/-- `marca_set = set(m.upper() for m in marcas_multimarca)` of the service
version. -/
def redisMarcaSet (ms : List String) : List String := ms.map upperStr

/-- `stock_min` of `redistribucion_service.py` (lines 46-56): identical
cascade to `calcular_stock_min` except that a fixed-reference code always
resolves through `fijo_normal` (the store plays no role) and the last
category key is `general`. -/
def redis_stock_min (cfgm : List (String × Int)) (refSet marcaSet : List String)
    (c m : String) : Int :=
  let c := upperStr c
  let m := upperStr m
  if refSet.contains c then
    dictGet cfgm "fijo_normal" 5
  else if marcaSet.contains m then
    dictGet cfgm "multimarca" 2
  else if strContains c "JGL" || strContains m "JGL" then
    dictGet cfgm "jgl" 3
  else if strContains c "JGM" || strContains m "JGM" then
    dictGet cfgm "jgm" 3
  else
    dictGet cfgm "general" 4

/-- `calcular_stock_min` of `consultas.py` (lines 97-109): like the service
version but the fixed-reference branch reads `fijo_especial` with
`fijo_normal` (then 5) as fallback, and the reference/brand sets are built
with strip-and-drop-empty. -/
def consultas_stock_min (cfgm : List (String × Int)) (refSet marcaSet : List String)
    (c m : String) : Int :=
  let c := upperStr c
  let m := upperStr m
  if refSet.contains c then
    dictGet cfgm "fijo_especial" (dictGet cfgm "fijo_normal" 5)
  else if marcaSet.contains m then
    dictGet cfgm "multimarca" 2
  else if strContains c "JGL" || strContains m "JGL" then
    dictGet cfgm "jgl" 3
  else if strContains c "JGM" || strContains m "JGM" then
    dictGet cfgm "jgm" 3
  else
    dictGet cfgm "general" 4

/-- Window-sales aggregate joined onto a stock row: `groupby(["tienda_norm",
"c_barra", "d_marca"]).sum()` followed by the left merge with
`fillna({"ventas_periodo": 0})` (both versions coerce nulls to 0). -/
def ventasAggGet (ventas : List VentaRow) (tn c m : String) : Int :=
  ((ventas.filter (fun v =>
      normText v.tienda_clean == tn && v.c_barra == c && v.d_marca == m)).map
    (fun v => v.ventas_periodo.getD 0)).sum

/-- The merged frame of the service version: one row per stock row, with
normalization, region, `redis_stock_min` and the sales aggregate. -/
def svcRows (inp : RedisInput) : List RRow :=
  inp.existencias.map (fun e =>
    let tn := normText e.tienda_clean
    { tienda_clean := e.tienda_clean
      tienda_norm := tn
      region := regionGet inp.config_tiendas tn
      c_barra := e.c_barra
      d_marca := e.d_marca
      stock_actual := e.stock_actual.getD 0
      stock_minimo := redis_stock_min (mkCfgMap inp.cfg) (redisRefSet inp.referencias)
        (redisMarcaSet inp.marcas) e.c_barra e.d_marca
      ventas_periodo := ventasAggGet inp.ventas tn e.c_barra e.d_marca })

/-- Service origin candidates (lines 75-79): surplus above the resolved
minimum, zero window sales, store not fixed. -/
def svcOrigenAll (inp : RedisInput) : List RRow :=
  (svcRows inp).filter (fun r =>
    r.stock_minimo < r.stock_actual && r.ventas_periodo == 0
      && !((fijaSetOf inp.config_tiendas).contains r.tienda_norm))

/-- Service destination candidates (lines 81-84). -/
def svcDestinoAll (inp : RedisInput) : List RRow :=
  (svcRows inp).filter (fun r =>
    r.stock_actual < r.stock_minimo && inp.ventas_min ≤ r.ventas_periodo)

/-- The optional `tienda_origen` restriction (lines 86-92): keep only the
requested origin store; empty means an empty result; destinations are
restricted to the origin's region. -/
def svcOD (inp : RedisInput) : List RRow × List RRow :=
  match inp.tienda_origen with
  | none => (svcOrigenAll inp, svcDestinoAll inp)
  | some t =>
    match (svcOrigenAll inp).filter (fun r => r.tienda_norm == normText t) with
    | [] => ([], [])
    | o1 :: os => (o1 :: os, (svcDestinoAll inp).filter (fun d => d.region == o1.region))

/-- `cantidad_sugerida` of the service version (lines 104-113): no clamping
and no conditional (every matched origin has strict surplus and every matched
destination strict deficit). -/
def svcCantidad (o d : RRow) : Int :=
  max 1 (min (Int.fdiv (o.stock_actual - o.stock_minimo) 2)
    (d.stock_minimo - d.stock_actual))

/-- The inner merge on `(region, c_barra, d_marca)` (lines 95-99). -/
def svcMerged (inp : RedisInput) : List (RRow × RRow) :=
  (svcOD inp).1.flatMap (fun o =>
    ((svcOD inp).2.filter (fun d =>
        d.region == o.region && d.c_barra == o.c_barra && d.d_marca == o.d_marca)).map
      (fun d => (o, d)))

/-- The service result (lines 115-127): suggested quantities computed, rows
with non-positive suggestion dropped, columns selected/renamed. -/
def svcFinal (inp : RedisInput) : List Sug :=
  ((svcMerged inp).map (fun p =>
    { region := p.1.region
      c_barra := p.1.c_barra
      d_marca := p.1.d_marca
      tienda_origen := p.1.tienda_clean
      tienda_destino := p.2.tienda_clean
      cantidad_sugerida := svcCantidad p.1 p.2 })).filter
    (fun s => 0 < s.cantidad_sugerida)

/-- The merged frame of the `consultas.py` version: identical construction
except for the stock-minimum resolver and its strip-built sets. -/
def conRows (inp : RedisInput) : List RRow :=
  inp.existencias.map (fun e =>
    let tn := normText e.tienda_clean
    { tienda_clean := e.tienda_clean
      tienda_norm := tn
      region := regionGet inp.config_tiendas tn
      c_barra := e.c_barra
      d_marca := e.d_marca
      stock_actual := e.stock_actual.getD 0
      stock_minimo := consultas_stock_min (mkCfgMap inp.cfg) (refSetStrip inp.referencias)
        (marcaSetStrip inp.marcas) e.c_barra e.d_marca
      ventas_periodo := ventasAggGet inp.ventas tn e.c_barra e.d_marca })

/-- `consultas.py` origin candidates (lines 129-130). -/
def conOrigenAll (inp : RedisInput) : List RRow :=
  (conRows inp).filter (fun r =>
    r.stock_minimo < r.stock_actual && r.ventas_periodo == 0
      && !((fijaSetOf inp.config_tiendas).contains r.tienda_norm))

/-- `consultas.py` destination candidates (line 132). -/
def conDestinoAll (inp : RedisInput) : List RRow :=
  (conRows inp).filter (fun r =>
    r.stock_actual < r.stock_minimo && inp.ventas_min ≤ r.ventas_periodo)

/-- `consultas.py` `tienda_origen` restriction (lines 135-143): membership
test, then the same filters as the service version. -/
def conOD (inp : RedisInput) : List RRow × List RRow :=
  match inp.tienda_origen with
  | none => (conOrigenAll inp, conDestinoAll inp)
  | some t =>
    match (conOrigenAll inp).filter (fun r => r.tienda_norm == normText t) with
    | [] => ([], [])
    | o1 :: os => (o1 :: os, (conDestinoAll inp).filter (fun d => d.region == o1.region))

/-- `exceso_origen` (line 164): surplus clipped at 0. -/
def conExceso (o : RRow) : Int := max (o.stock_actual - o.stock_minimo) 0

/-- `faltante_destino` (line 165): deficit clipped at 0. -/
def conFaltante (d : RRow) : Int := max (d.stock_minimo - d.stock_actual) 0

/-- `cantidad_sugerida` of `consultas.py` (lines 167-170): guarded by both
quantities being positive. -/
def conCantidad (o d : RRow) : Int :=
  if 0 < conExceso o ∧ 0 < conFaltante d then
    max 1 (min (Int.fdiv (conExceso o) 2) (conFaltante d))
  else 0

/-- The inner merge of `consultas.py` (lines 153-158). -/
def conMerged (inp : RedisInput) : List (RRow × RRow) :=
  (conOD inp).1.flatMap (fun o =>
    ((conOD inp).2.filter (fun d =>
        d.region == o.region && d.c_barra == o.c_barra && d.d_marca == o.d_marca)).map
      (fun d => (o, d)))

/-- The full column set returned by `consultas.py` (lines 178-190). -/
structure SugCon where
  region : String
  c_barra : String
  d_marca : String
  tienda_origen : String
  stock_origen : Int
  ventas_origen : Int
  tienda_destino : String
  stock_destino : Int
  ventas_destino : Int
  stock_minimo_destino : Int
  cantidad_sugerida : Int
deriving DecidableEq

/-- The `consultas.py` rows before the final sort (lines 167-190). -/
def conFinalPre (inp : RedisInput) : List SugCon :=
  ((conMerged inp).map (fun p =>
    { region := p.1.region
      c_barra := p.1.c_barra
      d_marca := p.1.d_marca
      tienda_origen := p.1.tienda_clean
      stock_origen := p.1.stock_actual
      ventas_origen := p.1.ventas_periodo
      tienda_destino := p.2.tienda_clean
      stock_destino := p.2.stock_actual
      ventas_destino := p.2.ventas_periodo
      stock_minimo_destino := p.2.stock_minimo
      cantidad_sugerida := conCantidad p.1 p.2 })).filter
    (fun s => 0 < s.cantidad_sugerida)

/-- Comparator of the final `sort_values(by=["region", "d_marca", "c_barra",
"tienda_origen"])` of `consultas.py` (line 192), lexicographic ascending. -/
def conLe (a b : SugCon) : Bool :=
  pyStrLt a.region b.region
    || (a.region == b.region
      && (pyStrLt a.d_marca b.d_marca
        || (a.d_marca == b.d_marca
          && (pyStrLt a.c_barra b.c_barra
            || (a.c_barra == b.c_barra
              && (pyStrLt a.tienda_origen b.tienda_origen
                || a.tienda_origen == b.tienda_origen))))))

/-- The `consultas.py` result: sorted suggestion rows (the Excel write and
prints are side effects outside the returned value). -/
def get_redistribucion_consultas (inp : RedisInput) : List SugCon :=
  sortByLe conLe (conFinalPre inp)

/-- Projection of a `consultas.py` row to the column set common to both
implementations (the columns claim C10 compares). -/
def conProj (s : SugCon) : Sug :=
  { region := s.region
    c_barra := s.c_barra
    d_marca := s.d_marca
    tienda_origen := s.tienda_origen
    tienda_destino := s.tienda_destino
    cantidad_sugerida := s.cantidad_sugerida }

/-! ### Membership lemmas for the service pipeline -/

theorem svcOD_fst_sub (inp : RedisInput) :
    ∀ o ∈ (svcOD inp).1, o ∈ svcOrigenAll inp := by
  intro o ho
  unfold svcOD at ho
  cases ht : inp.tienda_origen with
  | none => rw [ht] at ho; exact ho
  | some t =>
    rw [ht] at ho
    dsimp only at ho
    rcases hf : (svcOrigenAll inp).filter (fun r => r.tienda_norm == normText t) with
      _ | ⟨o1, os⟩
    · rw [hf] at ho
      simp at ho
    · rw [hf] at ho
      have hmem : o ∈ (svcOrigenAll inp).filter (fun r => r.tienda_norm == normText t) := by
        rw [hf]; exact ho
      exact (List.mem_filter.mp hmem).1

theorem svcOD_snd_sub (inp : RedisInput) :
    ∀ d ∈ (svcOD inp).2, d ∈ svcDestinoAll inp := by
  intro d hd
  unfold svcOD at hd
  cases ht : inp.tienda_origen with
  | none => rw [ht] at hd; exact hd
  | some t =>
    rw [ht] at hd
    dsimp only at hd
    rcases hf : (svcOrigenAll inp).filter (fun r => r.tienda_norm == normText t) with
      _ | ⟨o1, os⟩
    · rw [hf] at hd
      simp at hd
    · rw [hf] at hd
      exact (List.mem_filter.mp hd).1

theorem svcMerged_mem {inp : RedisInput} {p : RRow × RRow}
    (hp : p ∈ svcMerged inp) :
    p.1 ∈ svcOrigenAll inp ∧ p.2 ∈ svcDestinoAll inp
      ∧ p.2.region = p.1.region ∧ p.2.c_barra = p.1.c_barra
      ∧ p.2.d_marca = p.1.d_marca := by
  unfold svcMerged at hp
  rcases List.mem_flatMap.mp hp with ⟨o, ho, hpo⟩
  rcases List.mem_map.mp hpo with ⟨d, hd, hpd⟩
  obtain ⟨hd1, hd2⟩ := List.mem_filter.mp hd
  subst hpd
  simp only [Bool.and_eq_true, beq_iff_eq] at hd2
  exact ⟨svcOD_fst_sub inp o ho, svcOD_snd_sub inp d hd1,
    hd2.1.1, hd2.1.2, hd2.2⟩

theorem svcOrigen_mem {inp : RedisInput} {o : RRow}
    (ho : o ∈ svcOrigenAll inp) :
    o.stock_minimo < o.stock_actual ∧ o.ventas_periodo = 0
      ∧ (fijaSetOf inp.config_tiendas).contains o.tienda_norm = false := by
  obtain ⟨_, h⟩ := List.mem_filter.mp ho
  simp only [Bool.and_eq_true, decide_eq_true_eq, beq_iff_eq,
    Bool.not_eq_true'] at h
  exact ⟨h.1.1, h.1.2, h.2⟩

theorem svcDestino_mem {inp : RedisInput} {d : RRow}
    (hd : d ∈ svcDestinoAll inp) :
    d.stock_actual < d.stock_minimo ∧ inp.ventas_min ≤ d.ventas_periodo := by
  obtain ⟨_, h⟩ := List.mem_filter.mp hd
  simp only [Bool.and_eq_true, decide_eq_true_eq] at h
  exact h

/-! ### Claim C6 -/

/-- The minimum-stock rule cascade exactly as worded by the specification:
fixed-reference codes resolve to `fijo_especial` when the store is fixed and
to `fijo_normal` otherwise (literal fallback 5), then multi-brand (2), then
substring JGL (3), then JGM (3), else the final category under `lastKey`
(fallback 4), all comparisons on uppercased strings. -/
def specStockMinResolve (cfgm : List (String × Int)) (refSet marcaSet : List String)
    (storeFixed : Bool) (lastKey : String) (code brand : String) : Int :=
  let c := upperStr code
  let m := upperStr brand
  if refSet.contains c then
    (if storeFixed then dictGet cfgm "fijo_especial" 5 else dictGet cfgm "fijo_normal" 5)
  else if marcaSet.contains m then
    dictGet cfgm "multimarca" 2
  else if strContains c "JGL" || strContains m "JGL" then
    dictGet cfgm "jgl" 3
  else if strContains c "JGM" || strContains m "JGM" then
    dictGet cfgm "jgm" 3
  else
    dictGet cfgm lastKey 4

/-- A policy table distinguishing the fixed categories, used to separate the
two resolvers. -/
def cfgEsp : List (String × Int) := [("fijo_especial", 10), ("fijo_normal", 7)]

/-- Claim C6, counterexample: with `fijo_especial = 10`, `fijo_normal = 7`
and fixed reference "R" at a fixed store, the replenishment resolver returns
10 but the redistribution resolver returns 7 — the redistribution pipeline
never applies the `fijo_especial` rule, contradicting the claim that the same
rule order holds in both pipelines. -/
theorem C6_counterexample :
    calcular_stock_min (mkCfgMap cfgEsp) (refSetStrip ["R"]) (marcaSetStrip [])
        ["t fija"] "R" "M" "t fija" = 10
    ∧ redis_stock_min (mkCfgMap cfgEsp) (redisRefSet ["R"]) (redisMarcaSet [])
        "R" "M" = 7
    ∧ specStockMinResolve (mkCfgMap cfgEsp) (redisRefSet ["R"]) (redisMarcaSet [])
        true "general" "R" "M" = 10
    ∧ (7 : Int) ≠ 10 := by
  decide

/-- Claim C6 (amended): the replenishment resolver follows the claimed
cascade exactly (with final category key `default`); the redistribution
service resolver follows the same cascade and fallbacks except that the
store never counts as fixed there — fixed references always resolve through
`fijo_normal` — and the final category key is `general`. -/
theorem C6_resolver_rules :
    (∀ (cfg : List (String × Int)) (refs marcas : List String)
        (fijas : List String) (c m tn : String),
        calcular_stock_min (mkCfgMap cfg) (refSetStrip refs) (marcaSetStrip marcas)
            fijas c m tn
          = specStockMinResolve (mkCfgMap cfg) (refSetStrip refs)
              (marcaSetStrip marcas) (fijas.contains tn) "default" c m)
    ∧ (∀ (cfg : List (String × Int)) (refs marcas : List String) (c m : String),
        redis_stock_min (mkCfgMap cfg) (redisRefSet refs) (redisMarcaSet marcas) c m
          = specStockMinResolve (mkCfgMap cfg) (redisRefSet refs)
              (redisMarcaSet marcas) false "general" c m) := by
  constructor
  · intro cfg refs marcas fijas c m tn
    unfold calcular_stock_min specStockMinResolve
    by_cases hf : tn ∈ fijas <;> simp [hf]
  · intro cfg refs marcas c m
    rfl

/-! ### Claims C8 and C9 -/

/-- Scenario B of the specification: origin store O (not fixed, stock 10,
resolved minimum 4, zero sales) and destination store D (stock 1, minimum 4,
sales 2) in the same region and item. -/
def inpScenB : RedisInput :=
  { cfg := [], referencias := [], marcas := [], codigos_excluidos := []
    config_tiendas := [{ clean_name := "O", region := "N", fija := 0 },
                       { clean_name := "D", region := "N", fija := 0 }]
    ventas := [{ tienda_clean := "D", c_barra := "X1", d_marca := "M",
                 ventas_periodo := some 2 }]
    existencias := [{ tienda_clean := "O", c_barra := "X1", d_marca := "M",
                      stock_actual := some 10 },
                    { tienda_clean := "D", c_barra := "X1", d_marca := "M",
                      stock_actual := some 1 }]
    ventas_min := 1, tienda_origen := none }

/-- An all-empty fallback working row (only used as a `headD` default in
closed witness statements over concretely non-empty lists). -/
def defaultRRow : RRow :=
  { tienda_clean := "", tienda_norm := "", region := "", c_barra := ""
    d_marca := "", stock_actual := 0, stock_minimo := 0, ventas_periodo := 0 }

/-- An all-empty fallback suggestion (only used as a `headD` default in
closed witness statements over concretely non-empty lists). -/
def defaultSug : Sug :=
  { region := "", c_barra := "", d_marca := "", tienda_origen := ""
    tienda_destino := "", cantidad_sugerida := 0 }

/-- Claim C8: for every matched origin-destination pair the suggested
quantity equals `max(1, min(excess // 2, deficit))` with the claim's clipped
`excess`/`deficit` and positivity guard (the guard is always met on matched
pairs); rows with non-positive suggestion are dropped from the result; and
Scenario B concretely yields a suggested quantity of 3. -/
theorem C8_suggested_quantity :
    (∀ (inp : RedisInput), ∀ p ∈ svcMerged inp,
        svcCantidad p.1 p.2
          = (if 0 < max (p.1.stock_actual - p.1.stock_minimo) 0
                ∧ 0 < max (p.2.stock_minimo - p.2.stock_actual) 0 then
               max 1 (min (Int.fdiv (max (p.1.stock_actual - p.1.stock_minimo) 0) 2)
                 (max (p.2.stock_minimo - p.2.stock_actual) 0))
             else 0))
    ∧ (∀ (inp : RedisInput), ∀ s ∈ svcFinal inp, 0 < s.cantidad_sugerida)
    ∧ ((svcFinal inpScenB).map
        (fun s => (s.tienda_origen, s.tienda_destino, s.cantidad_sugerida))
      = [("O", "D", 3)]) := by
  refine ⟨?_, ?_, by decide⟩
  · intro inp p hp
    obtain ⟨ho, hd, _, _, _⟩ := svcMerged_mem hp
    obtain ⟨hos, _, _⟩ := svcOrigen_mem ho
    obtain ⟨hds, _⟩ := svcDestino_mem hd
    have hex : max (p.1.stock_actual - p.1.stock_minimo) 0
        = p.1.stock_actual - p.1.stock_minimo := max_eq_left (by omega)
    have hfa : max (p.2.stock_minimo - p.2.stock_actual) 0
        = p.2.stock_minimo - p.2.stock_actual := max_eq_left (by omega)
    rw [hex, hfa, if_pos (by omega)]
    rfl
  · intro inp s hs
    exact of_decide_eq_true (List.mem_filter.mp hs).2

/-- Witness for `C8_suggested_quantity` at Scenario B's matched pair. -/
theorem C8_suggested_quantity_witness :
    svcCantidad ((svcMerged inpScenB).headD (defaultRRow, defaultRRow)).1
        ((svcMerged inpScenB).headD (defaultRRow, defaultRRow)).2
      = (if 0 < max (((svcMerged inpScenB).headD (defaultRRow, defaultRRow)).1.stock_actual
              - ((svcMerged inpScenB).headD (defaultRRow, defaultRRow)).1.stock_minimo) 0
            ∧ 0 < max (((svcMerged inpScenB).headD (defaultRRow, defaultRRow)).2.stock_minimo
              - ((svcMerged inpScenB).headD (defaultRRow, defaultRRow)).2.stock_actual) 0 then
           max 1 (min (Int.fdiv (max (((svcMerged inpScenB).headD (defaultRRow, defaultRRow)).1.stock_actual
                 - ((svcMerged inpScenB).headD (defaultRRow, defaultRRow)).1.stock_minimo) 0) 2)
             (max (((svcMerged inpScenB).headD (defaultRRow, defaultRRow)).2.stock_minimo
               - ((svcMerged inpScenB).headD (defaultRRow, defaultRRow)).2.stock_actual) 0))
         else 0)
    ∧ 0 < ((svcFinal inpScenB).headD defaultSug).cantidad_sugerida :=
  ⟨C8_suggested_quantity.1 inpScenB _ (by decide),
   C8_suggested_quantity.2.1 inpScenB _ (by decide)⟩

/-- Claim C9: every suggestion of the service pipeline comes from an origin
row and a destination row agreeing on region, barcode and brand, and the
origin store is never a fixed store. -/
theorem C9_suggestion_provenance :
    ∀ (inp : RedisInput), ∀ s ∈ svcFinal inp,
      ∃ o d, o ∈ svcOrigenAll inp ∧ d ∈ svcDestinoAll inp
        ∧ (fijaSetOf inp.config_tiendas).contains o.tienda_norm = false
        ∧ d.region = o.region ∧ d.c_barra = o.c_barra ∧ d.d_marca = o.d_marca
        ∧ s.region = o.region ∧ s.c_barra = o.c_barra ∧ s.d_marca = o.d_marca
        ∧ s.tienda_origen = o.tienda_clean ∧ s.tienda_destino = d.tienda_clean := by
  intro inp s hs
  unfold svcFinal at hs
  obtain ⟨hmem, _⟩ := List.mem_filter.mp hs
  rcases List.mem_map.mp hmem with ⟨p, hp, hps⟩
  obtain ⟨ho, hd, hreg, hcb, hdm⟩ := svcMerged_mem hp
  obtain ⟨_, _, hfix⟩ := svcOrigen_mem ho
  subst hps
  exact ⟨p.1, p.2, ho, hd, hfix, hreg, hcb, hdm, rfl, rfl, rfl, rfl, rfl⟩

/-- Witness for `C9_suggestion_provenance` at Scenario B's suggestion. -/
theorem C9_suggestion_provenance_witness :
    ∃ o d, o ∈ svcOrigenAll inpScenB ∧ d ∈ svcDestinoAll inpScenB
      ∧ (fijaSetOf inpScenB.config_tiendas).contains o.tienda_norm = false
      ∧ d.region = o.region ∧ d.c_barra = o.c_barra ∧ d.d_marca = o.d_marca
      ∧ ((svcFinal inpScenB).headD defaultSug).region = o.region
      ∧ ((svcFinal inpScenB).headD defaultSug).c_barra = o.c_barra
      ∧ ((svcFinal inpScenB).headD defaultSug).d_marca = o.d_marca
      ∧ ((svcFinal inpScenB).headD defaultSug).tienda_origen = o.tienda_clean
      ∧ ((svcFinal inpScenB).headD defaultSug).tienda_destino = d.tienda_clean :=
  C9_suggestion_provenance inpScenB _ (by decide)

/-! ### Claim C10 -/

/-- An input separating the two redistribution implementations: the policy
table sets `fijo_especial = 10` and `fijo_normal = 3`, and the traded item
"R" is a fixed reference. -/
def inpDiv : RedisInput :=
  { cfg := [("fijo_especial", 10), ("fijo_normal", 3)]
    referencias := ["R"], marcas := [], codigos_excluidos := []
    config_tiendas := [{ clean_name := "O", region := "N", fija := 0 },
                       { clean_name := "D", region := "N", fija := 0 }]
    ventas := [{ tienda_clean := "D", c_barra := "R", d_marca := "M",
                 ventas_periodo := some 1 }]
    existencias := [{ tienda_clean := "O", c_barra := "R", d_marca := "M",
                      stock_actual := some 5 },
                    { tienda_clean := "D", c_barra := "R", d_marca := "M",
                      stock_actual := some 0 }]
    ventas_min := 1, tienda_origen := none }

/-- The suggestion produced only by the service implementation on `inpDiv`. -/
def sugDiv : Sug :=
  { region := "N", c_barra := "R", d_marca := "M", tienda_origen := "O"
    tienda_destino := "D", cantidad_sugerida := 1 }

/-- Claim C10, counterexample: on `inpDiv` the service implementation (which
resolves fixed references through `fijo_normal` = 3) proposes moving one unit
from O to D, while the `consultas.py` implementation (which resolves them
through `fijo_especial` = 10) finds no origin with surplus and returns no
rows — the two do not produce the same suggestion set. -/
theorem C10_counterexample :
    sugDiv ∈ svcFinal inpDiv
    ∧ sugDiv ∉ (get_redistribucion_consultas inpDiv).map conProj := by
  constructor
  · decide
  · decide

theorem refSetStrip_eq_redisRefSet (refs : List String)
    (h : ∀ r ∈ refs, trimStr r = r ∧ r ≠ "") :
    refSetStrip refs = redisRefSet refs := by
  unfold refSetStrip redisRefSet
  rw [List.filter_eq_self.mpr (fun r hr => by
    have := (h r hr).2
    simpa using this)]
  exact List.map_congr_left (fun r hr => by rw [(h r hr).1])

theorem marcaSetStrip_eq_redisMarcaSet (ms : List String)
    (h : ∀ m ∈ ms, trimStr m = m ∧ m ≠ "") :
    marcaSetStrip ms = redisMarcaSet ms := by
  unfold marcaSetStrip redisMarcaSet
  rw [List.filter_eq_self.mpr (fun m hm => by
    have := (h m hm).2
    simpa using this)]
  exact List.map_congr_left (fun m hm => by rw [(h m hm).1])

theorem consultas_stock_min_eq (cfg : List (String × Int)) (refs ms : List String)
    (h1 : ∀ r ∈ refs, trimStr r = r ∧ r ≠ "")
    (h2 : ∀ m ∈ ms, trimStr m = m ∧ m ≠ "")
    (h3 : dictGet (mkCfgMap cfg) "fijo_especial"
        (dictGet (mkCfgMap cfg) "fijo_normal" 5)
      = dictGet (mkCfgMap cfg) "fijo_normal" 5)
    (c m : String) :
    consultas_stock_min (mkCfgMap cfg) (refSetStrip refs) (marcaSetStrip ms) c m
      = redis_stock_min (mkCfgMap cfg) (redisRefSet refs) (redisMarcaSet ms) c m := by
  unfold consultas_stock_min redis_stock_min
  rw [refSetStrip_eq_redisRefSet refs h1, marcaSetStrip_eq_redisMarcaSet ms h2, h3]

theorem conRows_eq_svcRows (inp : RedisInput)
    (h1 : ∀ r ∈ inp.referencias, trimStr r = r ∧ r ≠ "")
    (h2 : ∀ m ∈ inp.marcas, trimStr m = m ∧ m ≠ "")
    (h3 : dictGet (mkCfgMap inp.cfg) "fijo_especial"
        (dictGet (mkCfgMap inp.cfg) "fijo_normal" 5)
      = dictGet (mkCfgMap inp.cfg) "fijo_normal" 5) :
    conRows inp = svcRows inp := by
  unfold conRows svcRows
  exact List.map_congr_left (fun e _ => by
    dsimp only
    rw [consultas_stock_min_eq inp.cfg inp.referencias inp.marcas h1 h2 h3])

/-- The suggested quantities of the two implementations agree on every
matched pair of the (common) merge. -/
theorem conCantidad_eq_svcCantidad {inp : RedisInput} {p : RRow × RRow}
    (hp : p ∈ svcMerged inp) :
    conCantidad p.1 p.2 = svcCantidad p.1 p.2 := by
  obtain ⟨ho, hd, _, _, _⟩ := svcMerged_mem hp
  obtain ⟨hos, _, _⟩ := svcOrigen_mem ho
  obtain ⟨hds, _⟩ := svcDestino_mem hd
  unfold conCantidad svcCantidad conExceso conFaltante
  have hex : max (p.1.stock_actual - p.1.stock_minimo) 0
      = p.1.stock_actual - p.1.stock_minimo := max_eq_left (by omega)
  have hfa : max (p.2.stock_minimo - p.2.stock_actual) 0
      = p.2.stock_minimo - p.2.stock_actual := max_eq_left (by omega)
  rw [hex, hfa, if_pos (by omega)]

/-- Claim C10 (amended): provided the fixed-reference and multi-brand lists
contain no empty or untrimmed entries and the policy table's effective
`fijo_especial` value equals its `fijo_normal` value, the two redistribution
implementations return the same suggestion rows (on the columns both return);
`inpDiv` shows they diverge without the policy condition. -/
theorem C10_conditional_equiv :
    ∀ (inp : RedisInput),
      (∀ r ∈ inp.referencias, trimStr r = r ∧ r ≠ "") →
      (∀ m ∈ inp.marcas, trimStr m = m ∧ m ≠ "") →
      dictGet (mkCfgMap inp.cfg) "fijo_especial"
          (dictGet (mkCfgMap inp.cfg) "fijo_normal" 5)
        = dictGet (mkCfgMap inp.cfg) "fijo_normal" 5 →
      ∀ s : Sug, s ∈ svcFinal inp ↔ s ∈ (get_redistribucion_consultas inp).map conProj := by
  intro inp h1 h2 h3 s
  have hrows := conRows_eq_svcRows inp h1 h2 h3
  have horig : conOrigenAll inp = svcOrigenAll inp := by
    unfold conOrigenAll svcOrigenAll
    rw [hrows]
  have hdest : conDestinoAll inp = svcDestinoAll inp := by
    unfold conDestinoAll svcDestinoAll
    rw [hrows]
  have hod : conOD inp = svcOD inp := by
    unfold conOD svcOD
    simp only [horig, hdest]
  have hmerged : conMerged inp = svcMerged inp := by
    unfold conMerged svcMerged
    simp only [hod]
  have hfinal : (conFinalPre inp).map conProj = svcFinal inp := by
    unfold conFinalPre svcFinal
    rw [hmerged, List.filter_map, List.filter_map, List.map_map,
      List.filter_congr (fun p hp => by
        simp only [Function.comp_apply]
        rw [conCantidad_eq_svcCantidad hp])]
    exact List.map_congr_left (fun p hp => by
      simp only [Function.comp_apply]
      have hp' : p ∈ svcMerged inp := (List.mem_filter.mp hp).1
      rw [show conProj
          { region := p.1.region, c_barra := p.1.c_barra, d_marca := p.1.d_marca,
            tienda_origen := p.1.tienda_clean, stock_origen := p.1.stock_actual,
            ventas_origen := p.1.ventas_periodo, tienda_destino := p.2.tienda_clean,
            stock_destino := p.2.stock_actual, ventas_destino := p.2.ventas_periodo,
            stock_minimo_destino := p.2.stock_minimo,
            cantidad_sugerida := conCantidad p.1 p.2 }
          = { region := p.1.region, c_barra := p.1.c_barra, d_marca := p.1.d_marca,
              tienda_origen := p.1.tienda_clean, tienda_destino := p.2.tienda_clean,
              cantidad_sugerida := conCantidad p.1 p.2 } from rfl,
        conCantidad_eq_svcCantidad hp'])
  unfold get_redistribucion_consultas
  rw [((sortByLe_perm conLe (conFinalPre inp)).map conProj).mem_iff, hfinal]

/-- Witness for `C10_conditional_equiv` at Scenario B's input. -/
theorem C10_conditional_equiv_witness :
    (svcFinal inpScenB).headD defaultSug ∈ svcFinal inpScenB
      ↔ (svcFinal inpScenB).headD defaultSug
          ∈ (get_redistribucion_consultas inpScenB).map conProj :=
  C10_conditional_equiv inpScenB (by decide) (by decide) (by decide) _

end JAGI
